import Mathlib

/-!
Verification of the parallel story scheduler and its supporting subsystems
(conflict filtering, file locks, circuit breaker, token budget, budget
strategy, run metrics, evidence store).

The Rust sources are shallowly embedded: structs become structures, machine
integers become Nat/Int (no arithmetic here approaches overflow), f64
thresholds and percentages become exact rationals (every comparison proved
below involves values on which IEEE double arithmetic is decided the same
way), HashMap/HashSet state becomes functions into Option or deduplicated
lists, and the stateful scheduler loop becomes explicit state passing or a
step relation.
-/

namespace Ralph

/-! ## Stories (parallel/dependency.rs, used by parallel/scheduler.rs) -/

/-- A node of the dependency graph: stable id, title, integer priority
(lower number = higher priority), and the declared target files forming the
conflict domain. -/
structure StoryNode where
  id : String
  title : String
  priority : Int
  target_files : List String
deriving DecidableEq, Repr

/-- Whether two stories have overlapping `target_files`
(the negation of the disjointness test in `detect_preexecution_conflicts`). -/
def filesIntersect (a b : StoryNode) : Bool :=
  a.target_files.any (fun f => b.target_files.contains f)

/-- The conflict pair recorded for two stories with overlapping files: the
first component is the deferred (lower-priority) story, priority number
compared first, lexicographic id as tie-break.  Returns `none` when the
target files are disjoint. -/
def conflictPair (a b : StoryNode) : Option (String × String) :=
  if filesIntersect a b then
    some (if a.priority > b.priority then (a.id, b.id)
          else if b.priority > a.priority then (b.id, a.id)
          else if a.id > b.id then (a.id, b.id) else (b.id, a.id))
  else none

/-- `detect_preexecution_conflicts`: every ordered index pair `i < j` of the
ready list is examined; the nested loop is embedded as structural recursion
(head paired against every later element, then recurse on the tail). -/
def detect_preexecution_conflicts : List StoryNode → List (String × String)
  | [] => []
  | a :: rest =>
      rest.filterMap (conflictPair a) ++ detect_preexecution_conflicts rest

/-- `filter_conflicting_stories`: drops every story appearing as the first
(deferred) component of some conflict pair, keeping the rest in order. -/
def filter_conflicting_stories (stories : List StoryNode) :
    List StoryNode × List (String × String) :=
  if stories.isEmpty then (stories, [])
  else
    let conflicts := detect_preexecution_conflicts stories
    if conflicts.isEmpty then (stories, [])
    else
      let deferred_ids := conflicts.map Prod.fst
      (stories.filter (fun s => !(deferred_ids.contains s.id)), conflicts)

/-- Specification-side predicate: story `s` loses against story `t` when
their target files intersect and `s` has the higher priority number, ties
broken by lexicographic id (the greater id loses). -/
def losesTo (s t : StoryNode) : Bool :=
  filesIntersect s t &&
    (decide (t.priority < s.priority) ||
      (decide (s.priority = t.priority) && decide (t.id < s.id)))

/-! ## File locks (ParallelExecutionState, parallel/scheduler.rs) -/

/-- The `locked_files` map of `ParallelExecutionState`: file path to owning
story id, embedded as a function into `Option`. -/
def LockMap : Type := String → Option String

/-- The availability check of `acquire_locks`: every target file is either
unlocked or locked by the acquiring story itself. -/
def locksAvailable (locked_files : LockMap) (story_id : String)
    (target_files : List String) : Bool :=
  target_files.all (fun f =>
    match locked_files f with
    | some locking_story => locking_story == story_id
    | none => true)

/-- `ParallelExecutionState::acquire_locks`: check every file first, then
insert all locks; on failure the map is returned untouched together with
`false`. -/
def acquire_locks (locked_files : LockMap) (story_id : String)
    (target_files : List String) : LockMap × Bool :=
  if locksAvailable locked_files story_id target_files then
    (target_files.foldl
        (fun m f => fun p => if p = f then some story_id else m p)
        locked_files,
      true)
  else (locked_files, false)

/-- `ParallelExecutionState::release_locks`: retain only entries owned by a
different story. -/
def release_locks (locked_files : LockMap) (story_id : String) : LockMap :=
  fun p =>
    match locked_files p with
    | some locking_story =>
        if locking_story = story_id then none else some locking_story
    | none => none

/-! ## Circuit breaker accounting (ParallelRunner::run batch loop) -/

/-- Result tuple produced by one spawned story task:
`(story_id, success, iterations, is_transient_failure)`. -/
structure TaskResult where
  story_id : String
  success : Bool
  iterations : Nat
  is_transient : Bool
deriving DecidableEq, Repr

/-- Outcome of one batch wait: either all tasks joined within
`batch_timeout`, or the timeout elapsed.  A timed-out batch carries the
outcomes of the members whose tasks completed (and recorded themselves)
before the timeout — the supervisor drops these joined results — together
with `batch_story_ids`, the post-dispatch in-flight snapshot whose length
the supervisor adds to the breaker counter. -/
inductive BatchResult where
  | completed (results : List TaskResult)
  | timedOut (results : List TaskResult) (batch_story_ids : List String)
deriving DecidableEq, Repr

/-- The supervisor's contribution of one batch to the cumulative
circuit-breaker counter: a batch joined within the timeout counts results
that are neither successes nor transient errors; a timed-out batch counts
the whole post-dispatch snapshot (`batch_story_ids.len()`), regardless of
members that completed before the timeout. -/
def batch_failures : BatchResult → Nat
  | .completed results =>
      (results.filter (fun r => !r.success && !r.is_transient)).length
  | .timedOut _ batch_story_ids => batch_story_ids.length

/-- Specification-side count of the non-transient story failures actually
recorded for one batch: non-transient failures among members that
finished, plus the members still in flight at a timeout (each marked
failed with `batch_timeout`).  Members that completed successfully or
transiently before a timeout are not failures. -/
def story_failures : BatchResult → Nat
  | .completed results =>
      (results.filter (fun r => !r.success && !r.is_transient)).length
  | .timedOut results batch_story_ids =>
      (results.filter (fun r => !r.success && !r.is_transient)).length
        + (batch_story_ids.filter
            (fun id => !(results.any (fun r => r.story_id == id)))).length

/-- The circuit-breaker message built by the scheduler. -/
def circuit_breaker_message (cumulative threshold : Nat) : String :=
  "Circuit breaker triggered: " ++ toString cumulative ++
    " failures across batches (threshold: " ++ toString threshold ++ ")"

/-- How the main loop ends with respect to the circuit breaker: either the
breaker trips after some batch (with the cumulative count, the
`error_type` tag and the returned error message), or every batch is
processed without reaching the threshold. -/
inductive SchedExit where
  | circuitBreaker (cumulative : Nat) (error_type : String) (error : String)
  | loopEnd (cumulative : Nat)
deriving DecidableEq, Repr

/-- The failure-accounting skeleton of `ParallelRunner::run`: after each
batch the batch's non-transient failures are added to the cumulative
counter and the breaker trips as soon as the counter reaches the
threshold, returning the `circuit_breaker` error. -/
def run_batches (threshold : Nat) (cumulative : Nat) :
    List BatchResult → SchedExit
  | [] => .loopEnd cumulative
  | b :: rest =>
      let c := cumulative + batch_failures b
      if threshold ≤ c then
        .circuitBreaker c "circuit_breaker"
          (circuit_breaker_message c threshold ++
            ". Checkpoint saved. Resume with: ralph --resume")
      else run_batches threshold c rest

/-- Running total of the supervisor's counter over a batch list. -/
def cumulative_failures (batches : List BatchResult) : Nat :=
  (batches.map batch_failures).sum

/-- Running total of recorded non-transient story failures over a batch
list. -/
def cumulative_story_failures (batches : List BatchResult) : Nat :=
  (batches.map story_failures).sum

/-! ## Token budget tracker (budget/config.rs, budget/tracker.rs) -/

/-- Input/output token counts (budget/estimator.rs `TokenCount`). -/
structure TokenCount where
  input_tokens : Nat
  output_tokens : Nat
deriving DecidableEq, Repr

/-- Cost per 1000 tokens, in cents (budget/config.rs `TokenCost`); the f64
rates are embedded as exact rationals. -/
structure TokenCost where
  input_cost_per_1k : ℚ
  output_cost_per_1k : ℚ
  model_name : String
deriving DecidableEq, Repr

/-- `TokenCost::calculate_cost`. -/
def TokenCost.calculate_cost (c : TokenCost)
    (input_tokens output_tokens : Nat) : ℚ :=
  (input_tokens : ℚ) / 1000 * c.input_cost_per_1k +
    (output_tokens : ℚ) / 1000 * c.output_cost_per_1k

/-- Default cost settings (Claude Sonnet pricing). -/
def TokenCost.default : TokenCost :=
  { input_cost_per_1k := 3 / 10, output_cost_per_1k := 3 / 2
    model_name := "claude-sonnet" }

/-- `TokenBudgetConfig` (budget/config.rs); thresholds as rationals. -/
structure TokenBudgetConfig where
  story_budget : Nat
  total_budget : Nat
  max_cost_cents : ℚ
  warning_threshold : ℚ
  critical_threshold : ℚ
  abort_on_story_budget_exceeded : Bool
  abort_on_total_budget_exceeded : Bool
  cost_settings : TokenCost
  reserve_buffer : Nat
  verbose_logging : Bool
deriving DecidableEq, Repr

/-- Budget status tags (budget/tracker.rs `BudgetStatus`). -/
inductive BudgetStatus where
  | Ok
  | Warning
  | Critical
  | Exceeded
deriving DecidableEq, Repr

/-- Per-story budget counters (budget/tracker.rs `StoryBudget`, minus the
wall-clock start instant). -/
structure StoryBudget where
  story_id : String
  input_tokens : Nat
  output_tokens : Nat
  iterations : Nat
  tokens_per_iteration : List TokenCount
  budget_limit : Nat
deriving DecidableEq, Repr

/-- `StoryBudget::new`. -/
def StoryBudget.new (story_id : String) (budget_limit : Nat) : StoryBudget :=
  { story_id := story_id, input_tokens := 0, output_tokens := 0
    iterations := 0, tokens_per_iteration := [], budget_limit := budget_limit }

/-- `StoryBudget::total_tokens`. -/
def StoryBudget.total_tokens (s : StoryBudget) : Nat :=
  s.input_tokens + s.output_tokens

/-- `StoryBudget::usage_percent` (0 when the limit is 0). -/
def StoryBudget.usage_percent (s : StoryBudget) : ℚ :=
  if s.budget_limit = 0 then 0
  else (s.total_tokens : ℚ) / (s.budget_limit : ℚ)

/-- `StoryBudget::record_iteration`. -/
def StoryBudget.record_iteration (s : StoryBudget) (tokens : TokenCount) :
    StoryBudget :=
  { s with
      iterations := s.iterations + 1
      input_tokens := s.input_tokens + tokens.input_tokens
      output_tokens := s.output_tokens + tokens.output_tokens
      tokens_per_iteration := s.tokens_per_iteration ++ [tokens] }

/-- The mutable tracker state (budget/tracker.rs `TokenBudget`); the
`HashMap` of story budgets becomes an association list whose insert
replaces the existing key. -/
structure TokenBudget where
  config : TokenBudgetConfig
  total_input_tokens : Nat
  total_output_tokens : Nat
  story_budgets : List (String × StoryBudget)
  current_story_id : Option String
  total_cost : ℚ
deriving DecidableEq, Repr

/-- `TokenBudget::new`. -/
def TokenBudget.new (config : TokenBudgetConfig) : TokenBudget :=
  { config := config, total_input_tokens := 0, total_output_tokens := 0
    story_budgets := [], current_story_id := none, total_cost := 0 }

/-- HashMap-style insert on the association list. -/
def alistInsert (l : List (String × StoryBudget)) (k : String)
    (v : StoryBudget) : List (String × StoryBudget) :=
  (k, v) :: l.filter (fun p => !(p.1 == k))

/-- `TokenBudget::start_story`. -/
def TokenBudget.start_story (b : TokenBudget) (story_id : String) :
    TokenBudget :=
  { b with
      story_budgets := alistInsert b.story_budgets story_id
        (StoryBudget.new story_id b.config.story_budget)
      current_story_id := some story_id }

/-- `TokenBudget::current_story`. -/
def TokenBudget.current_story (b : TokenBudget) : Option StoryBudget :=
  b.current_story_id.bind (fun id => (b.story_budgets.lookup id))

/-- `TokenBudget::record_iteration`: bump the run totals, the current
story's counters, and the accumulated cost. -/
def TokenBudget.record_iteration (b : TokenBudget) (input output : Nat) :
    TokenBudget :=
  let b1 := { b with
      total_input_tokens := b.total_input_tokens + input
      total_output_tokens := b.total_output_tokens + output }
  let b2 := match b1.current_story_id with
    | some id =>
        match b1.story_budgets.lookup id with
        | some sb =>
            { b1 with story_budgets :=
                (alistInsert b1.story_budgets id
                  (sb.record_iteration ⟨input, output⟩)) }
        | none => b1
    | none => b1
  { b2 with total_cost :=
      b2.total_cost + b2.config.cost_settings.calculate_cost input output }

/-- `TokenBudget::total_tokens`. -/
def TokenBudget.total_tokens (b : TokenBudget) : Nat :=
  b.total_input_tokens + b.total_output_tokens

/-- `TokenBudget::total_usage_percent`. -/
def TokenBudget.total_usage_percent (b : TokenBudget) : ℚ :=
  if b.config.total_budget = 0 then 0
  else (b.total_tokens : ℚ) / (b.config.total_budget : ℚ)

/-- `TokenBudget::story_usage_percent`. -/
def TokenBudget.story_usage_percent (b : TokenBudget) : ℚ :=
  (b.current_story.map StoryBudget.usage_percent).getD 0

/-- `TokenBudget::compute_status`: Exceeded at or above 1, Critical at or
above the critical threshold, Warning at or above the warning threshold. -/
def TokenBudget.compute_status (b : TokenBudget) (usage : ℚ) : BudgetStatus :=
  if 1 ≤ usage then .Exceeded
  else if b.config.critical_threshold ≤ usage then .Critical
  else if b.config.warning_threshold ≤ usage then .Warning
  else .Ok

/-- `TokenBudget::story_status`. -/
def TokenBudget.story_status (b : TokenBudget) : BudgetStatus :=
  b.compute_status b.story_usage_percent

/-- `TokenBudget::total_status`. -/
def TokenBudget.total_status (b : TokenBudget) : BudgetStatus :=
  b.compute_status b.total_usage_percent

/-- `TokenBudget::cost_status`. -/
def TokenBudget.cost_status (b : TokenBudget) : BudgetStatus :=
  if b.config.max_cost_cents ≤ 0 then .Ok
  else b.compute_status (b.total_cost / b.config.max_cost_cents)

/-- `TokenBudget::can_continue_story`. -/
def TokenBudget.can_continue_story (b : TokenBudget) : Bool :=
  if b.story_status = .Exceeded && b.config.abort_on_story_budget_exceeded
  then false
  else if b.total_status = .Exceeded && b.config.abort_on_total_budget_exceeded
  then false
  else if b.cost_status = .Exceeded && decide (0 < b.config.max_cost_cents)
  then false
  else true

/-! ## Budget strategy (budget/strategy.rs) -/

/-- Prompt detail levels (`PromptStrategy`). -/
inductive PromptStrategy where
  | Full
  | Standard
  | Minimal
  | Critical
deriving DecidableEq, Repr

/-- Budget-aware execution strategy (`BudgetStrategy`). -/
structure BudgetStrategy where
  prompt_strategy : PromptStrategy
  skip_optional_gates : Bool
  reduce_retries : Bool
  max_retries : Nat
  prioritize_small_stories : Bool
  reason : String
deriving DecidableEq, Repr

/-- `BudgetStrategy::normal`. -/
def BudgetStrategy.normal : BudgetStrategy :=
  { prompt_strategy := .Standard, skip_optional_gates := false
    reduce_retries := false, max_retries := 0
    prioritize_small_stories := false
    reason := "Budget OK - normal execution" }

/-- `BudgetStrategy::conservative`. -/
def BudgetStrategy.conservative : BudgetStrategy :=
  { prompt_strategy := .Standard, skip_optional_gates := true
    reduce_retries := false, max_retries := 0
    prioritize_small_stories := true
    reason := "Budget warning - conservative execution" }

/-- `BudgetStrategy::minimal`. -/
def BudgetStrategy.minimal : BudgetStrategy :=
  { prompt_strategy := .Minimal, skip_optional_gates := true
    reduce_retries := true, max_retries := 2
    prioritize_small_stories := true
    reason := "Budget critical - minimal execution" }

/-- `BudgetStrategy::stop`. -/
def BudgetStrategy.stop : BudgetStrategy :=
  { prompt_strategy := .Critical, skip_optional_gates := true
    reduce_retries := true, max_retries := 0
    prioritize_small_stories := true
    reason := "Budget exceeded - stopping execution" }

/-- `BudgetStrategy::from_status`. -/
def BudgetStrategy.from_status : BudgetStatus → BudgetStrategy
  | .Ok => .normal
  | .Warning => .conservative
  | .Critical => .minimal
  | .Exceeded => .stop

/-- `BudgetStrategy::effective_max_iterations`: an explicit `max_retries`
wins, otherwise `reduce_retries` halves the default (at least 1). -/
def BudgetStrategy.effective_max_iterations (s : BudgetStrategy)
    (default_max : Nat) : Nat :=
  if 0 < s.max_retries then s.max_retries
  else if s.reduce_retries then Nat.max (default_max / 2) 1
  else default_max

/-! ## Concurrency cap (semaphore discipline of ParallelRunner::run)

The dispatch loop acquires one semaphore permit per spawned story task and
the permit is held (RAII) for the task's lifetime.  The interleaving of the
supervisor and the worker tasks is embedded as a step relation on an
abstract state: `available_permits` mirrors the semaphore, `in_flight` the
scheduler's in-flight set, and `orphaned_permits` counts tasks that were
removed from `in_flight` by the batch-timeout path while still holding
their permit until they are eventually joined. -/

structure SchedState where
  available_permits : Nat
  in_flight : Finset String
  orphaned_permits : Nat
deriving DecidableEq

/-- One observable transition of the scheduler/worker interleaving:
dispatch consumes a permit and inserts into `in_flight`; a normally
finishing task removes itself and releases its permit; the batch-timeout
path removes a story from `in_flight` while its task keeps the permit; a
timed-out task that finally returns releases its orphaned permit. -/
inductive SchedStep : SchedState → SchedState → Prop
  | dispatch (s : SchedState) (id : String)
      (hp : 0 < s.available_permits) (hid : id ∉ s.in_flight) :
      SchedStep s
        ⟨s.available_permits - 1, insert id s.in_flight, s.orphaned_permits⟩
  | finish (s : SchedState) (id : String) (hid : id ∈ s.in_flight) :
      SchedStep s
        ⟨s.available_permits + 1, s.in_flight.erase id, s.orphaned_permits⟩
  | batch_timeout_mark (s : SchedState) (id : String)
      (hid : id ∈ s.in_flight) :
      SchedStep s
        ⟨s.available_permits, s.in_flight.erase id, s.orphaned_permits + 1⟩
  | orphan_join (s : SchedState) (ho : 0 < s.orphaned_permits) :
      SchedStep s
        ⟨s.available_permits + 1, s.in_flight, s.orphaned_permits - 1⟩

/-- Run start: `Semaphore::new(max_concurrency)`, no story executing. -/
def initState (max_concurrency : Nat) : SchedState :=
  ⟨max_concurrency, ∅, 0⟩

/-! ## Run metrics collector (metrics/mod.rs) -/

/-- Per-step metrics (`StepMetrics`, wall-clock timestamps omitted;
durations as milliseconds). -/
structure StepMetrics where
  step_id : String
  attempts : Nat
  duration : Nat
  success : Bool
  error : Option String
deriving DecidableEq, Repr

/-- `StepMetrics::new`. -/
def StepMetrics.new (step_id : String) : StepMetrics :=
  { step_id := step_id, attempts := 0, duration := 0, success := false
    error := none }

/-- The collector state (`RunMetricsState`): the step `HashMap` becomes an
association list, the evidence-step `HashSet` a deduplicated list. -/
structure RunMetricsState where
  run_id : String
  expected_steps : Nat
  steps : List (String × StepMetrics)
  evidence_steps : List String
deriving DecidableEq, Repr

/-- `RunMetricsCollector::new`. -/
def RunMetricsCollector.new (run_id : String) (expected_steps : Nat) :
    RunMetricsState :=
  { run_id := run_id, expected_steps := expected_steps, steps := []
    evidence_steps := [] }

/-- The operations a scheduler run performs on the collector. -/
inductive MetricsOp where
  | set_expected_steps (n : Nat)
  | start_step (step_id : String)
  | record_evidence_step (step_id : String)
  | complete_step (step_id : String) (success : Bool) (attempts : Nat)
      (duration : Nat) (error : Option String)
deriving DecidableEq, Repr

/-- Apply one collector operation (set_expected_steps, start_step,
record_evidence_step, complete_step of metrics/mod.rs). -/
def applyMetricsOp (st : RunMetricsState) : MetricsOp → RunMetricsState
  | .set_expected_steps n => { st with expected_steps := n }
  | .start_step step_id =>
      if (st.steps.lookup step_id).isSome then st
      else { st with steps := st.steps ++ [(step_id, StepMetrics.new step_id)] }
  | .record_evidence_step step_id =>
      if st.evidence_steps.contains step_id then st
      else { st with evidence_steps := st.evidence_steps ++ [step_id] }
  | .complete_step step_id success attempts duration error =>
      let entry := (st.steps.lookup step_id).getD (StepMetrics.new step_id)
      let entry := { entry with
          attempts := attempts, duration := duration, success := success
          error := error }
      { st with steps :=
          (st.steps.filter (fun p => !(p.1 == step_id))) ++ [(step_id, entry)] }

/-- Apply a sequence of collector operations. -/
def applyMetricsOps (st : RunMetricsState) (ops : List MetricsOp) :
    RunMetricsState :=
  ops.foldl applyMetricsOp st

/-- The fields of the `RunMetrics` snapshot that `finish` derives from the
collector state (timestamps and durations aside). -/
structure RunMetrics where
  run_id : String
  expected_steps : Nat
  steps_attempted : Nat
  steps_completed : Nat
  failures : Nat
  retries : Nat
  completeness_percent : ℚ
deriving DecidableEq, Repr

/-- `RunMetricsCollector::finish`: `completeness_percent` is 100 when no
steps were expected, otherwise `(evidence / expected × 100)` capped at
100. -/
def RunMetricsState.finish (st : RunMetricsState) : RunMetrics :=
  let steps_attempted := st.steps.length
  let steps_completed := (st.steps.filter (fun p => p.2.success)).length
  let evidence_steps : ℚ := (st.evidence_steps.length : ℚ)
  { run_id := st.run_id
    expected_steps := st.expected_steps
    steps_attempted := steps_attempted
    steps_completed := steps_completed
    failures := steps_attempted - steps_completed
    retries := (st.steps.map (fun p => p.2.attempts - 1)).sum
    completeness_percent :=
      if st.expected_steps = 0 then 100
      else min (evidence_steps / (st.expected_steps : ℚ) * 100) 100 }

/-! ## Evidence store (evidence/record.rs, evidence/store.rs)

Timestamps (`chrono::DateTime<Utc>`) are embedded as integers on an
abstract timeline measured in seconds, so `Duration::days(n)` becomes
`86400 * n`. -/

/-- `EvidenceRecord` with the opaque JSON payload kept as a string. -/
structure EvidenceRecord where
  schema_version : Nat
  run_id : String
  recorded_at : Int
  kind : String
  payload : String
deriving DecidableEq, Repr

/-- `EvidenceRunMetadata` (the `run.json` manifest). -/
structure EvidenceRunMetadata where
  schema_version : Nat
  run_id : String
  created_at : Int
  updated_at : Int
  record_count : Nat
deriving DecidableEq, Repr

/-- `EvidenceRunMetadata::new`. -/
def EvidenceRunMetadata.new (run_id : String) (timestamp : Int) :
    EvidenceRunMetadata :=
  { schema_version := 1, run_id := run_id, created_at := timestamp
    updated_at := timestamp, record_count := 0 }

/-- `EvidenceRunMetadata::record`. -/
def EvidenceRunMetadata.record (m : EvidenceRunMetadata) (timestamp : Int) :
    EvidenceRunMetadata :=
  { m with updated_at := timestamp, record_count := m.record_count + 1 }

/-- One `runs/<run_id>/` directory: optional manifest plus the
`events.jsonl` lines. -/
structure RunDir where
  manifest : Option EvidenceRunMetadata
  events : List EvidenceRecord
deriving DecidableEq, Repr

/-- The evidence file-system state: the run directories keyed by name. -/
structure EvidenceFS where
  runs : List (String × RunDir)
deriving DecidableEq, Repr

/-- Errors of the evidence store. -/
inductive EvidenceError where
  | Io
  | Json
  | InvalidRunId
deriving DecidableEq, Repr

/-- Rust's `char::is_whitespace`: membership in the Unicode `White_Space`
set (U+0009..U+000D, U+0020, U+0085, U+00A0, U+1680, U+2000..U+200A,
U+2028, U+2029, U+202F, U+205F, U+3000). -/
def rustIsWhitespace (c : Char) : Bool :=
  (0x09 ≤ c.val && c.val ≤ 0x0D) || c.val = 0x20 || c.val = 0x85
    || c.val = 0xA0 || c.val = 0x1680
    || (0x2000 ≤ c.val && c.val ≤ 0x200A)
    || c.val = 0x2028 || c.val = 0x2029 || c.val = 0x202F
    || c.val = 0x205F || c.val = 0x3000

/-- `record.run_id.trim().is_empty()`: the id is empty or every character
is Unicode whitespace, so that trimming leaves nothing. -/
def runIdTrimEmpty (run_id : String) : Bool :=
  run_id.data.all rustIsWhitespace

/-- Insert-or-replace of a run directory. -/
def fsInsert (runs : List (String × RunDir)) (name : String) (dir : RunDir) :
    List (String × RunDir) :=
  (name, dir) :: runs.filter (fun p => !(p.1 == name))

/-- `EvidenceStore::append_record`: reject blank run ids before any write;
otherwise create the run directory if needed, append the record to the
events log, and update the manifest. -/
def append_record (fs : EvidenceFS) (rec : EvidenceRecord) :
    EvidenceFS × Except EvidenceError Unit :=
  if runIdTrimEmpty rec.run_id then (fs, .error .InvalidRunId)
  else
    let dir := (fs.runs.lookup rec.run_id).getD ⟨none, []⟩
    let dir := { dir with events := dir.events ++ [rec] }
    let metadata := match dir.manifest with
      | some m => m
      | none => EvidenceRunMetadata.new rec.run_id rec.recorded_at
    let metadata := metadata.record rec.recorded_at
    let dir := { dir with manifest := some metadata }
    (⟨fsInsert fs.runs rec.run_id dir⟩, .ok ())

/-- `EvidenceStore::enforce_retention`: with zero retention days nothing is
scanned; otherwise every run directory whose manifest `created_at` is
strictly before `now - days(retention_days)` is removed (directories
without a readable manifest are skipped).  Returns the surviving
directories and the number deleted. -/
def enforce_retention (retention_days : Nat) (now : Int)
    (runs : List (String × RunDir)) : List (String × RunDir) × Nat :=
  if retention_days = 0 then (runs, 0)
  else
    let cutoff := now - 86400 * (retention_days : Int)
    ((runs.filter (fun p =>
        match p.2.manifest with
        | none => true
        | some m => !(decide (m.created_at < cutoff))),
      (runs.filter (fun p =>
        match p.2.manifest with
        | none => false
        | some m => decide (m.created_at < cutoff))).length))

/-! ## Concrete example data used by witnesses and counterexamples -/

/-- Three ready stories; the first two share a target file. -/
def exampleStories : List StoryNode :=
  [ { id := "US-001", title := "auth", priority := 1
      target_files := ["src/auth.rs", "src/lib.rs"] }
  , { id := "US-002", title := "api", priority := 2
      target_files := ["src/lib.rs", "src/api.rs"] }
  , { id := "US-003", title := "docs", priority := 3
      target_files := ["docs/readme.md"] } ]

/-- A lock map in which story `US-001` already holds one lock. -/
def examplePriorLocks : LockMap :=
  fun p => if p = "src/lib.rs" then some "US-001" else none

/-- The empty lock map. -/
def emptyLockMap : LockMap := fun _ => none

/-- One batch in which two stories fail at their quality gates. -/
def exampleBatches : List BatchResult :=
  [ .completed
      [ { story_id := "US-001", success := false, iterations := 1
          is_transient := false }
      , { story_id := "US-002", success := false, iterations := 2
          is_transient := false } ] ]

/-- A timed-out batch with mixed outcomes: `US-001` completed successfully
before the timeout, `US-002` was still in flight when it elapsed. -/
def timeoutMixedBatches : List BatchResult :=
  [ .timedOut
      [ { story_id := "US-001", success := true, iterations := 1
          is_transient := false } ]
      ["US-001", "US-002"] ]

/-- The budget configuration of the exceed-stops scenario: story cap
10000, warning 0.5, critical 0.8, abort on story budget. -/
def exceedScenarioConfig : TokenBudgetConfig :=
  { story_budget := 10000, total_budget := 0, max_cost_cents := 0
    warning_threshold := 1 / 2, critical_threshold := 4 / 5
    abort_on_story_budget_exceeded := true
    abort_on_total_budget_exceeded := true
    cost_settings := TokenCost.default, reserve_buffer := 0
    verbose_logging := false }

/-- The tracker after starting story `US-001` and recording
`record_iteration(3000, 1000)` the given number of times. -/
def exceedScenario : Nat → TokenBudget
  | 0 => (TokenBudget.new exceedScenarioConfig).start_story "US-001"
  | n + 1 => (exceedScenario n).record_iteration 3000 1000

/-- The collector state reached from `RunMetricsCollector::new` by a
sequence of operations. -/
def collectorAfter (run_id : String) (expected0 : Nat)
    (ops : List MetricsOp) : RunMetricsState :=
  applyMetricsOps (RunMetricsCollector.new run_id expected0) ops

/-- Two run directories, one 2 days old and one fresh, as seen at time
`172800` (two days). -/
def exampleRunDirs : List (String × RunDir) :=
  [ ("run-old", { manifest := some (EvidenceRunMetadata.new "run-old" 0)
                  events := [] })
  , ("run-new", { manifest := some (EvidenceRunMetadata.new "run-new" 172800)
                  events := [] }) ]

/-! # Theorems -/

/-- C4 (counterexample): with story cap 10000, warning 0.5, critical 0.8,
recording `record_iteration(3000, 1000)` twice yields story status
Critical, not the Warning the claim states for iteration 2 (usage is
8000/10000 = 0.8, which already meets the critical threshold). -/
theorem budget_scenario_counterexample :
    (exceedScenario 2).story_status = BudgetStatus.Critical
    ∧ (exceedScenario 2).story_status ≠ BudgetStatus.Warning := by
  have h : (exceedScenario 2).story_status = BudgetStatus.Critical := by
    norm_num [exceedScenario, exceedScenarioConfig, TokenBudget.new,
      TokenBudget.start_story, TokenBudget.record_iteration, alistInsert,
      TokenBudget.story_status, TokenBudget.story_usage_percent,
      TokenBudget.current_story, TokenBudget.compute_status,
      StoryBudget.new, StoryBudget.record_iteration,
      StoryBudget.usage_percent, StoryBudget.total_tokens, List.lookup]
  exact ⟨h, by rw [h]; intro hc; cases hc⟩

/-- C4 (amended): with a per-story cap of 10000 tokens, warning threshold
0.5, critical threshold 0.8 and abort-on-story-budget enabled, recording
`record_iteration(3000, 1000)` four times on a started story yields the
story statuses Ok, Critical, Exceeded, Exceeded after iterations 1 through
4 respectively, and after the Exceeded status `can_continue_story` returns
false. -/
theorem budget_scenario_statuses :
    (exceedScenario 1).story_status = BudgetStatus.Ok
    ∧ (exceedScenario 2).story_status = BudgetStatus.Critical
    ∧ (exceedScenario 3).story_status = BudgetStatus.Exceeded
    ∧ (exceedScenario 4).story_status = BudgetStatus.Exceeded
    ∧ (exceedScenario 4).can_continue_story = false := by
  refine ⟨?_, ?_, ?_, ?_, ?_⟩ <;>
    norm_num [exceedScenario, exceedScenarioConfig, TokenBudget.new,
      TokenBudget.start_story, TokenBudget.record_iteration, alistInsert,
      TokenBudget.story_status, TokenBudget.story_usage_percent,
      TokenBudget.current_story, TokenBudget.compute_status,
      TokenBudget.can_continue_story, TokenBudget.total_status,
      TokenBudget.total_usage_percent, TokenBudget.cost_status,
      StoryBudget.new, StoryBudget.record_iteration,
      StoryBudget.usage_percent, StoryBudget.total_tokens, List.lookup]

/-- C5 (counterexample): at default maximum 10, the strategy for status
Critical has effective maximum iterations 2, not max(10/2, 1) = 5, and the
strategy for status Exceeded has effective maximum iterations 5, not 0
(its `max_retries` field is 0, so the `reduce_retries` halving applies). -/
theorem strategy_counterexample :
    ((BudgetStrategy.from_status BudgetStatus.Critical).effective_max_iterations
          10 = 2
      ∧ (2 : Nat) ≠ Nat.max (10 / 2) 1)
    ∧ ((BudgetStrategy.from_status BudgetStatus.Exceeded).effective_max_iterations
          10 = 5
      ∧ (5 : Nat) ≠ 0) := by
  decide

/-- C5 (amended): the strategy for status Critical uses Minimal prompt
detail, skips optional gates and fixes `max_retries = 2`, so its effective
maximum iterations is 2 for every default maximum; the strategy for status
Exceeded uses Critical prompt detail, skips optional gates, has
`max_retries = 0` and `reduce_retries` set, so its effective maximum
iterations is max(d/2, 1) for every default maximum d. -/
theorem strategy_from_status_spec (d : Nat) :
    ((BudgetStrategy.from_status BudgetStatus.Critical).prompt_strategy
          = PromptStrategy.Minimal
      ∧ (BudgetStrategy.from_status BudgetStatus.Critical).skip_optional_gates
          = true
      ∧ (BudgetStrategy.from_status BudgetStatus.Critical).max_retries = 2
      ∧ (BudgetStrategy.from_status
          BudgetStatus.Critical).effective_max_iterations d = 2)
    ∧ ((BudgetStrategy.from_status BudgetStatus.Exceeded).prompt_strategy
          = PromptStrategy.Critical
      ∧ (BudgetStrategy.from_status BudgetStatus.Exceeded).skip_optional_gates
          = true
      ∧ (BudgetStrategy.from_status BudgetStatus.Exceeded).max_retries = 0
      ∧ (BudgetStrategy.from_status
          BudgetStatus.Exceeded).effective_max_iterations d
          = Nat.max (d / 2) 1) := by
  simp [BudgetStrategy.from_status, BudgetStrategy.minimal,
    BudgetStrategy.stop, BudgetStrategy.effective_max_iterations]

/-- The lock-insertion fold of `acquire_locks` sets every target file to
the acquiring story and leaves every other path untouched. -/
theorem foldl_insert_locks (m : LockMap) (story_id : String)
    (target_files : List String) (p : String) :
    (target_files.foldl
        (fun m f => fun q => if q = f then some story_id else m q) m) p
      = if p ∈ target_files then some story_id else m p := by
  induction target_files generalizing m with
  | nil => simp
  | cons a as ih =>
      simp only [List.foldl_cons, List.mem_cons]
      rw [ih]
      by_cases hc : p ∈ as
      · simp [hc]
      · by_cases hpa : p = a <;> simp [hc, hpa]

/-- On a passing availability check, `acquire_locks` inserts all locks and
reports success. -/
theorem acquire_locks_of_available (m : LockMap) (story_id : String)
    (target_files : List String)
    (hav : locksAvailable m story_id target_files = true) :
    acquire_locks m story_id target_files
      = (target_files.foldl
          (fun m f => fun q => if q = f then some story_id else m q) m,
        true) := by
  unfold acquire_locks
  rw [if_pos hav]
  rfl

/-- On a failing availability check, `acquire_locks` returns the map
unchanged and reports failure. -/
theorem acquire_locks_of_unavailable (m : LockMap) (story_id : String)
    (target_files : List String)
    (hav : locksAvailable m story_id target_files = false) :
    acquire_locks m story_id target_files = (m, false) := by
  unfold acquire_locks
  rw [if_neg (by simp [hav])]

/-- The availability check of `acquire_locks` fails exactly when some
target file is locked by a different story. -/
theorem locksAvailable_eq_false_iff (m : LockMap) (story_id : String)
    (target_files : List String) :
    locksAvailable m story_id target_files = false
      ↔ ∃ f ∈ target_files, ∃ t, m f = some t ∧ t ≠ story_id := by
  unfold locksAvailable
  rw [← Bool.not_eq_true, List.all_eq_true]
  constructor
  · intro h
    push_neg at h
    obtain ⟨f, hf, hb⟩ := h
    cases hmf : m f with
    | none => rw [hmf] at hb; simp at hb
    | some t =>
        rw [hmf] at hb
        exact ⟨f, hf, t, hmf, by simpa [beq_iff_eq] using hb⟩
  · rintro ⟨f, hf, t, hmf, hts⟩ hall
    have hft := hall f hf
    rw [hmf] at hft
    simp [beq_iff_eq] at hft
    exact hts hft

/-- C2: `acquire_locks` is atomic: it returns false exactly when some
target file is locked by another story (own locks never fail it); on
success every target file is locked by the acquiring story and all other
entries are untouched; on failure the lock map is completely unchanged. -/
theorem acquire_locks_atomic (m : LockMap) (story_id : String)
    (target_files : List String) :
    ((acquire_locks m story_id target_files).2 = false
        ↔ ∃ f ∈ target_files, ∃ t, m f = some t ∧ t ≠ story_id)
    ∧ ((acquire_locks m story_id target_files).2 = true →
        (∀ f ∈ target_files,
            (acquire_locks m story_id target_files).1 f = some story_id)
          ∧ ∀ p, p ∉ target_files →
            (acquire_locks m story_id target_files).1 p = m p)
    ∧ ((acquire_locks m story_id target_files).2 = false →
        (acquire_locks m story_id target_files).1 = m) := by
  refine ⟨?_, ?_, ?_⟩
  · rw [← locksAvailable_eq_false_iff m story_id target_files]
    cases hav : locksAvailable m story_id target_files
    · rw [acquire_locks_of_unavailable m story_id target_files hav]
    · rw [acquire_locks_of_available m story_id target_files hav]
  · intro hs
    cases hav : locksAvailable m story_id target_files with
    | false =>
        rw [acquire_locks_of_unavailable m story_id target_files hav] at hs
        simp at hs
    | true =>
        rw [acquire_locks_of_available m story_id target_files hav]
        exact ⟨fun f hf => by simp [foldl_insert_locks, hf],
          fun p hp => by simp [foldl_insert_locks, hp]⟩
  · intro hs
    cases hav : locksAvailable m story_id target_files with
    | false => rw [acquire_locks_of_unavailable m story_id target_files hav]
    | true =>
        rw [acquire_locks_of_available m story_id target_files hav] at hs
        simp at hs

/-- C2 (witness): acquiring a file locked by another story fails and
leaves the map unchanged. -/
theorem acquire_locks_atomic_witness :
    (acquire_locks examplePriorLocks "US-002" ["src/lib.rs"]).2 = false
    ∧ (acquire_locks examplePriorLocks "US-002" ["src/lib.rs"]).1
        = examplePriorLocks := by
  have h := acquire_locks_atomic examplePriorLocks "US-002" ["src/lib.rs"]
  have hfail : (acquire_locks examplePriorLocks "US-002" ["src/lib.rs"]).2
      = false :=
    h.1.mpr ⟨"src/lib.rs", by simp, "US-001", by simp [examplePriorLocks],
      by simp⟩
  exact ⟨hfail, h.2.2 hfail⟩

/-- C9 (counterexample): when the acquiring story already holds a lock
before the acquisition, a successful `acquire_locks` followed by
`release_locks` does not restore the prior map: `US-001` holds
`src/lib.rs` beforehand, re-acquires it successfully, and the release
removes the pre-existing lock as well. -/
theorem release_after_acquire_counterexample :
    (acquire_locks examplePriorLocks "US-001" ["src/lib.rs"]).2 = true
    ∧ release_locks
        (acquire_locks examplePriorLocks "US-001" ["src/lib.rs"]).1 "US-001"
        ≠ examplePriorLocks := by
  constructor
  · rfl
  · intro h
    have h2 := congrFun h "src/lib.rs"
    simp [release_locks, acquire_locks, locksAvailable, examplePriorLocks]
      at h2

/-- C9 (amended): if `acquire_locks(s, F)` succeeds from a state in which
story `s` holds no lock, then `release_locks(s)` afterwards returns the
lock map to exactly the state it had before the acquisition. -/
theorem release_after_acquire_restores (m : LockMap) (story_id : String)
    (target_files : List String)
    (hacq : (acquire_locks m story_id target_files).2 = true)
    (hfree : ∀ p, m p ≠ some story_id) :
    release_locks (acquire_locks m story_id target_files).1 story_id = m := by
  have hav : locksAvailable m story_id target_files = true := by
    cases h : locksAvailable m story_id target_files with
    | false =>
        rw [acquire_locks_of_unavailable m story_id target_files h] at hacq
        simp at hacq
    | true => rfl
  have hres : (acquire_locks m story_id target_files).1
      = target_files.foldl
          (fun m f => fun q => if q = f then some story_id else m q) m := by
    rw [acquire_locks_of_available m story_id target_files hav]
  rw [hres]
  funext p
  unfold release_locks
  rw [foldl_insert_locks]
  by_cases hp : p ∈ target_files
  · rw [if_pos hp]
    have hall := (List.all_eq_true.mp hav) p hp
    cases hmp : m p with
    | none => simp [hmp]
    | some t =>
        rw [hmp] at hall
        simp only [beq_iff_eq] at hall
        exact absurd (by rw [hmp, hall] : m p = some story_id) (hfree p)
  · rw [if_neg hp]
    cases hmp : m p with
    | none => simp [hmp]
    | some t =>
        have ht : t ≠ story_id := fun he => hfree p (by rw [hmp, he])
        simp [hmp, ht]

/-- C9 (witness): from the empty lock map a successful acquisition
followed by release restores the empty map. -/
theorem release_after_acquire_restores_witness :
    release_locks (acquire_locks emptyLockMap "US-001" ["src/a.rs"]).1
        "US-001" = emptyLockMap :=
  release_after_acquire_restores emptyLockMap "US-001" ["src/a.rs"] rfl
    (fun _ => by simp [emptyLockMap])

/-- C8: after `enforce_retention()` with positive retention days, no run
directory whose manifest `created_at` is older than `now - retention_days`
remains and every run directory whose manifest `created_at` is at or after
the cutoff is preserved; with zero retention days nothing is deleted. -/
theorem enforce_retention_spec (retention_days : Nat) (now : Int)
    (runs : List (String × RunDir)) :
    (retention_days = 0 →
        enforce_retention retention_days now runs = (runs, 0))
    ∧ (0 < retention_days →
        (∀ p ∈ (enforce_retention retention_days now runs).1,
            ∀ m, p.2.manifest = some m →
              now - 86400 * (retention_days : Int) ≤ m.created_at)
        ∧ (∀ p ∈ runs, ∀ m, p.2.manifest = some m →
            now - 86400 * (retention_days : Int) ≤ m.created_at →
            p ∈ (enforce_retention retention_days now runs).1)) := by
  constructor
  · intro h
    subst h
    simp [enforce_retention]
  · intro hpos
    have hne : ¬ retention_days = 0 := Nat.pos_iff_ne_zero.mp hpos
    constructor
    · intro p hp m hm
      unfold enforce_retention at hp
      rw [if_neg hne] at hp
      have hpred := List.of_mem_filter hp
      rw [hm] at hpred
      simp at hpred
      omega
    · intro p hp m hm hcut
      unfold enforce_retention
      rw [if_neg hne]
      refine List.mem_filter.mpr ⟨hp, ?_⟩
      rw [hm]
      simp
      omega

/-- C8 (witness): at time 172800 with one-day retention, a directory
created at time 172800 is preserved. -/
theorem enforce_retention_spec_witness :
    ("run-new",
      ({ manifest := some (EvidenceRunMetadata.new "run-new" 172800)
         events := [] } : RunDir))
      ∈ (enforce_retention 1 172800 exampleRunDirs).1 :=
  (enforce_retention_spec 1 172800 exampleRunDirs).2 (by decide) |>.2
    ("run-new",
      { manifest := some (EvidenceRunMetadata.new "run-new" 172800)
        events := [] })
    (by simp [exampleRunDirs]) (EvidenceRunMetadata.new "run-new" 172800)
    rfl (by decide)

/-- C10: appending an evidence record whose run id is empty or consists
only of Unicode whitespace (the `White_Space` set that `str::trim`
strips) returns the `InvalidRunId` error and leaves the evidence file
system completely unchanged (no directory created, no event appended, no
manifest touched). -/
theorem append_record_invalid_run_id (fs : EvidenceFS)
    (rec : EvidenceRecord)
    (h : rec.run_id.data.all rustIsWhitespace = true) :
    append_record fs rec = (fs, Except.error EvidenceError.InvalidRunId) := by
  unfold append_record
  rw [if_pos (by simpa [runIdTrimEmpty] using h)]

/-- C10 (witness): a run id of a space and a vertical tab (U+000B, Unicode
whitespace beyond the ASCII four) is rejected without touching an empty
store. -/
theorem append_record_invalid_run_id_witness :
    append_record ⟨[]⟩
        { schema_version := 1, run_id := " \x0B", recorded_at := 0
          kind := "lifecycle", payload := "{}" }
      = (⟨[]⟩, Except.error EvidenceError.InvalidRunId) :=
  append_record_invalid_run_id ⟨[]⟩
    { schema_version := 1, run_id := " \x0B", recorded_at := 0
      kind := "lifecycle", payload := "{}" } (by decide)

/-- Cumulative failures distribute over cons. -/
theorem cumulative_failures_cons (b : BatchResult) (rest : List BatchResult) :
    cumulative_failures (b :: rest)
      = batch_failures b + cumulative_failures rest := by
  simp [cumulative_failures]

/-- The batch loop reaches the circuit breaker exactly when the running
total (started at `c0`) meets the threshold after some batch prefix. -/
theorem run_batches_breaker_iff (threshold c0 : Nat)
    (batches : List BatchResult) :
    (∃ c et e,
        run_batches threshold c0 batches = SchedExit.circuitBreaker c et e)
      ↔ ∃ k, 0 < k ∧ k ≤ batches.length
          ∧ threshold ≤ c0 + cumulative_failures (batches.take k) := by
  induction batches generalizing c0 with
  | nil =>
      constructor
      · rintro ⟨c, et, e, h⟩
        simp [run_batches] at h
      · rintro ⟨k, hk0, hk, -⟩
        exact absurd hk (by simpa using Nat.pos_iff_ne_zero.mp hk0)
  | cons b rest ih =>
      simp only [run_batches]
      by_cases hcb : threshold ≤ c0 + batch_failures b
      · rw [if_pos hcb]
        constructor
        · intro _
          exact ⟨1, Nat.one_pos, by simp,
            by simpa [cumulative_failures] using hcb⟩
        · intro _
          exact ⟨_, _, _, rfl⟩
      · rw [if_neg hcb, ih (c0 + batch_failures b)]
        constructor
        · rintro ⟨k, hk0, hkle, hth⟩
          refine ⟨k + 1, by omega, by simpa using Nat.succ_le_succ hkle, ?_⟩
          simpa [cumulative_failures_cons, Nat.add_assoc] using hth
        · rintro ⟨k, hk0, hkle, hth⟩
          cases k with
          | zero => omega
          | succ k =>
              have hk : 0 < k := by
                rcases Nat.eq_zero_or_pos k with h0 | h0
                · subst h0
                  exact absurd
                    (by simpa [cumulative_failures] using hth) hcb
                · exact h0
              refine ⟨k, hk, by simpa using hkle, ?_⟩
              simpa [cumulative_failures_cons, Nat.add_assoc] using hth

/-- When the batch loop ends at the circuit breaker, the error type is
`circuit_breaker`, the message is the breaker message, and the reported
cumulative count is the running total after the tripping batch. -/
theorem run_batches_breaker_elim (threshold c0 : Nat)
    (batches : List BatchResult) (c : Nat) (et e : String)
    (h : run_batches threshold c0 batches = SchedExit.circuitBreaker c et e) :
    et = "circuit_breaker"
    ∧ e = circuit_breaker_message c threshold ++
        ". Checkpoint saved. Resume with: ralph --resume"
    ∧ ∃ k, 0 < k ∧ k ≤ batches.length
        ∧ c = c0 + cumulative_failures (batches.take k) ∧ threshold ≤ c := by
  induction batches generalizing c0 with
  | nil => simp [run_batches] at h
  | cons b rest ih =>
      simp only [run_batches] at h
      by_cases hcb : threshold ≤ c0 + batch_failures b
      · rw [if_pos hcb] at h
        simp only [SchedExit.circuitBreaker.injEq] at h
        obtain ⟨hc, het, he⟩ := h
        subst hc het he
        exact ⟨rfl, rfl, 1, Nat.one_pos, by simp,
          by simp [cumulative_failures], hcb⟩
      · rw [if_neg hcb] at h
        obtain ⟨het, he, k, hk0, hkle, hc, hth⟩ :=
          ih (c0 + batch_failures b) h
        refine ⟨het, he, k + 1, by omega,
          by simpa using Nat.succ_le_succ hkle, ?_, hth⟩
        rw [hc]
        simp [cumulative_failures_cons, Nat.add_assoc]

/-- On batches that all join within the timeout, the supervisor's counter
coincides with the recorded non-transient story failures. -/
theorem cumulative_failures_eq_story (batches : List BatchResult) :
    (∀ b ∈ batches, ∃ results, b = BatchResult.completed results) →
      cumulative_failures batches = cumulative_story_failures batches := by
  induction batches with
  | nil => intro _; rfl
  | cons b rest ih =>
      intro h
      obtain ⟨results, hb⟩ := h b (by simp)
      subst hb
      have heq := ih (fun x hx => h x (by simp [hx]))
      simp only [cumulative_failures, cumulative_story_failures,
        List.map_cons, List.sum_cons] at heq ⊢
      rw [heq]
      rfl

/-- C3 (counterexample): with threshold 2 and one timed-out batch in which
`US-001` completed successfully before the timeout and only `US-002` was
still in flight, the loop exits with the circuit breaker (the code adds
`batch_story_ids.len() = 2`), although the running total of non-transient
story failures after the batch is only 1, below the threshold — so the
claimed iff fails at this input. -/
theorem circuit_breaker_counterexample :
    (∃ c et e,
        run_batches 2 0 timeoutMixedBatches = SchedExit.circuitBreaker c et e)
    ∧ ¬ (∃ k, 0 < k ∧ k ≤ timeoutMixedBatches.length
          ∧ 2 ≤ cumulative_story_failures (timeoutMixedBatches.take k)) := by
  constructor
  · exact ⟨2, "circuit_breaker",
      circuit_breaker_message 2 2 ++
        ". Checkpoint saved. Resume with: ralph --resume", by decide⟩
  · rintro ⟨k, hk0, hk1, hge⟩
    have hlen : timeoutMixedBatches.length = 1 := rfl
    rw [hlen] at hk1
    have hk : k = 1 := by omega
    subst hk
    revert hge
    decide

/-- C3 (amended): the scheduler loop exits with error type
`circuit_breaker` iff the supervisor's cumulative failure counter reaches
the threshold after some batch, where a batch joined within the timeout
contributes its non-transient failures (quality-gate failures and
non-Transient typed errors) and a timed-out batch contributes the full
size of its post-dispatch in-flight snapshot, even for members that
completed successfully or transiently before the timeout; the returned
error message is `Circuit breaker triggered: {c} failures across batches
(threshold: {t}). Checkpoint saved. Resume with: ralph --resume` with `c`
the counter value and `t` the threshold.  When no batch times out, the
counter equals the running total of non-transient story failures, so the
original claim holds for timeout-free runs. -/
theorem circuit_breaker_iff (threshold : Nat) (batches : List BatchResult) :
    ((∃ c et e,
        run_batches threshold 0 batches = SchedExit.circuitBreaker c et e)
      ↔ ∃ k, 0 < k ∧ k ≤ batches.length
          ∧ threshold ≤ cumulative_failures (batches.take k))
    ∧ (∀ c et e,
        run_batches threshold 0 batches = SchedExit.circuitBreaker c et e →
          et = "circuit_breaker"
          ∧ e = "Circuit breaker triggered: " ++ toString c ++
              " failures across batches (threshold: " ++ toString threshold ++
              "). Checkpoint saved. Resume with: ralph --resume"
          ∧ ∃ k, 0 < k ∧ k ≤ batches.length
              ∧ c = cumulative_failures (batches.take k) ∧ threshold ≤ c)
    ∧ ((∀ b ∈ batches, ∃ results, b = BatchResult.completed results) →
        ((∃ c et e,
            run_batches threshold 0 batches = SchedExit.circuitBreaker c et e)
          ↔ ∃ k, 0 < k ∧ k ≤ batches.length
              ∧ threshold ≤ cumulative_story_failures (batches.take k))) := by
  have hfirst :
      (∃ c et e,
        run_batches threshold 0 batches = SchedExit.circuitBreaker c et e)
      ↔ ∃ k, 0 < k ∧ k ≤ batches.length
          ∧ threshold ≤ cumulative_failures (batches.take k) := by
    simpa using run_batches_breaker_iff threshold 0 batches
  refine ⟨hfirst, ?_, ?_⟩
  · intro c et e h
    obtain ⟨het, he, k, hk0, hkle, hc, hth⟩ :=
      run_batches_breaker_elim threshold 0 batches c et e h
    refine ⟨het, ?_, k, hk0, hkle, by simpa using hc, hth⟩
    rw [he]
    have hlit : (")" : String) ++
        ". Checkpoint saved. Resume with: ralph --resume"
        = "). Checkpoint saved. Resume with: ralph --resume" := by decide
    simp [circuit_breaker_message, String.append_assoc, hlit]
  · intro hall
    have htake : ∀ k, cumulative_failures (batches.take k)
        = cumulative_story_failures (batches.take k) :=
      fun k => cumulative_failures_eq_story (batches.take k)
        (fun b hb => hall b (List.mem_of_mem_take hb))
    refine hfirst.trans ?_
    constructor
    · rintro ⟨k, hk0, hkl, hge⟩
      rw [htake k] at hge
      exact ⟨k, hk0, hkl, hge⟩
    · rintro ⟨k, hk0, hkl, hge⟩
      rw [← htake k] at hge
      exact ⟨k, hk0, hkl, hge⟩

/-- C3 (witness): with threshold 2 and one fully joined batch of two
quality-gate failures, the loop trips the breaker at cumulative count 2
with the documented message, and on this timeout-free run the counter iff
holds with the story-failure count as well. -/
theorem circuit_breaker_iff_witness :
    ("circuit_breaker" = "circuit_breaker"
      ∧ circuit_breaker_message 2 2 ++
          ". Checkpoint saved. Resume with: ralph --resume"
        = "Circuit breaker triggered: " ++ toString 2 ++
            " failures across batches (threshold: " ++ toString 2 ++
            "). Checkpoint saved. Resume with: ralph --resume"
      ∧ ∃ k, 0 < k ∧ k ≤ exampleBatches.length
          ∧ 2 = cumulative_failures (exampleBatches.take k) ∧ 2 ≤ 2)
    ∧ ((∃ c et e,
          run_batches 2 0 exampleBatches = SchedExit.circuitBreaker c et e)
        ↔ ∃ k, 0 < k ∧ k ≤ exampleBatches.length
            ∧ 2 ≤ cumulative_story_failures (exampleBatches.take k)) :=
  ⟨(circuit_breaker_iff 2 exampleBatches).2.1 2 "circuit_breaker"
      (circuit_breaker_message 2 2 ++
        ". Checkpoint saved. Resume with: ralph --resume") (by decide),
    (circuit_breaker_iff 2 exampleBatches).2.2
      (fun b hb => by
        simp only [exampleBatches, List.mem_singleton] at hb
        exact ⟨_, hb⟩)⟩

/-- Every scheduler/worker transition preserves the permit balance: free
permits plus in-flight stories plus timed-out tasks still holding their
permit always total the semaphore size. -/
theorem schedStep_preserves_balance {s t : SchedState} (N : Nat)
    (h : SchedStep s t)
    (hinv : s.available_permits + s.in_flight.card + s.orphaned_permits = N) :
    t.available_permits + t.in_flight.card + t.orphaned_permits = N := by
  cases h with
  | dispatch id hp hid =>
      dsimp only
      rw [Finset.card_insert_of_not_mem hid]
      omega
  | finish id hid =>
      have hcard : 0 < s.in_flight.card := Finset.card_pos.mpr ⟨id, hid⟩
      dsimp only
      rw [Finset.card_erase_of_mem hid]
      omega
  | batch_timeout_mark id hid =>
      have hcard : 0 < s.in_flight.card := Finset.card_pos.mpr ⟨id, hid⟩
      dsimp only
      rw [Finset.card_erase_of_mem hid]
      omega
  | orphan_join ho =>
      dsimp only
      omega

/-- Every state reachable from the run start keeps the permit balance. -/
theorem reachable_balance (max_concurrency : Nat) (s : SchedState)
    (h : Relation.ReflTransGen SchedStep (initState max_concurrency) s) :
    s.available_permits + s.in_flight.card + s.orphaned_permits
      = max_concurrency := by
  induction h with
  | refl => simp [initState]
  | tail hsteps hstep ih =>
      exact schedStep_preserves_balance max_concurrency hstep ih

/-- C6: in every state reachable by the scheduler's permit discipline, the
number of executing stories (in flight, plus timed-out tasks that still
hold their permit) never exceeds `max_concurrency`; in particular at every
instant the set of stories started and not yet finished is bounded by
`max_concurrency`. -/
theorem concurrency_cap (max_concurrency : Nat) (s : SchedState)
    (h : Relation.ReflTransGen SchedStep (initState max_concurrency) s) :
    s.in_flight.card + s.orphaned_permits ≤ max_concurrency := by
  have hbal := reachable_balance max_concurrency s h
  omega

/-- C6 (witness): with one permit, dispatching one story reaches a state
with exactly one executing story, within the bound. -/
theorem concurrency_cap_witness :
    (⟨0, {"US-001"}, 0⟩ : SchedState).in_flight.card
      + (⟨0, {"US-001"}, 0⟩ : SchedState).orphaned_permits ≤ 1 :=
  concurrency_cap 1 ⟨0, {"US-001"}, 0⟩
    (Relation.ReflTransGen.single
      (SchedStep.dispatch (initState 1) "US-001" Nat.one_pos
        (Finset.not_mem_empty "US-001")))

/-- Applying collector operations preserves deduplication of the evidence
step list. -/
theorem applyMetricsOp_evidence_nodup (st : RunMetricsState)
    (op : MetricsOp) (h : st.evidence_steps.Nodup) :
    (applyMetricsOp st op).evidence_steps.Nodup := by
  cases op with
  | set_expected_steps n => exact h
  | start_step step_id =>
      unfold applyMetricsOp
      by_cases hs : (st.steps.lookup step_id).isSome <;> simp [hs, h]
  | record_evidence_step step_id =>
      unfold applyMetricsOp
      by_cases hmem : step_id ∈ st.evidence_steps
      · simp [hmem, h]
      · simp [hmem, List.nodup_append, h]
  | complete_step step_id success attempts duration error => exact h

/-- The evidence step list of any reachable collector state is
deduplicated. -/
theorem collectorAfter_evidence_nodup (run_id : String) (expected0 : Nat)
    (ops : List MetricsOp) :
    (collectorAfter run_id expected0 ops).evidence_steps.Nodup := by
  unfold collectorAfter applyMetricsOps
  have hgen : ∀ st : RunMetricsState, st.evidence_steps.Nodup →
      (ops.foldl applyMetricsOp st).evidence_steps.Nodup := by
    induction ops with
    | nil => intro st h; exact h
    | cons op rest ih =>
        intro st h
        exact ih (applyMetricsOp st op)
          (applyMetricsOp_evidence_nodup st op h)
  exact hgen (RunMetricsCollector.new run_id expected0) (by
    simp [RunMetricsCollector.new])

/-- C7: for every run metrics snapshot produced by the collector,
`completeness_percent` lies in [0, 100]; it equals 100 when
`expected_steps = 0`, and otherwise equals
`min(100, evidence_steps / expected_steps × 100)` where `evidence_steps`
is the number of distinct step ids with recorded evidence. -/
theorem completeness_percent_spec (run_id : String) (expected0 : Nat)
    (ops : List MetricsOp) :
    0 ≤ ((collectorAfter run_id expected0 ops).finish).completeness_percent
    ∧ ((collectorAfter run_id expected0 ops).finish).completeness_percent
        ≤ 100
    ∧ (((collectorAfter run_id expected0 ops).finish).expected_steps = 0 →
        ((collectorAfter run_id expected0 ops).finish).completeness_percent
          = 100)
    ∧ (((collectorAfter run_id expected0 ops).finish).expected_steps ≠ 0 →
        ((collectorAfter run_id expected0 ops).finish).completeness_percent
          = min 100
            (((collectorAfter run_id expected0 ops).evidence_steps.toFinset.card
                : ℚ)
              / (((collectorAfter run_id expected0 ops).finish).expected_steps
                : ℚ) * 100)) := by
  set st := collectorAfter run_id expected0 ops with hst
  have hcard : (st.evidence_steps.toFinset.card : ℚ)
      = (st.evidence_steps.length : ℚ) := by
    rw [List.toFinset_card_of_nodup
      (by rw [hst]; exact collectorAfter_evidence_nodup run_id expected0 ops)]
  refine ⟨?_, ?_, ?_, ?_⟩
  · unfold RunMetricsState.finish
    by_cases h0 : st.expected_steps = 0
    · simp [h0]
    · simp only [h0, if_false]
      refine le_min ?_ (by norm_num)
      positivity
  · unfold RunMetricsState.finish
    by_cases h0 : st.expected_steps = 0
    · simp [h0]
    · simp only [h0, if_false]
      exact min_le_right _ _
  · intro h0
    have h0e : st.expected_steps = 0 := h0
    unfold RunMetricsState.finish
    simp [h0e]
  · intro h0
    have h0e : st.expected_steps ≠ 0 := h0
    unfold RunMetricsState.finish
    simp only [h0e, if_false]
    rw [hcard, min_comm]

/-- C7 (witness): with two expected steps and evidence for one distinct
step, completeness is min(100, 1/2 × 100) = 50. -/
theorem completeness_percent_spec_witness :
    ((collectorAfter "run-1" 0
        [MetricsOp.set_expected_steps 2,
          MetricsOp.record_evidence_step "US-001"]).finish).completeness_percent
      = min 100
        (((collectorAfter "run-1" 0
            [MetricsOp.set_expected_steps 2,
              MetricsOp.record_evidence_step "US-001"]).evidence_steps.toFinset.card
            : ℚ)
          / (((collectorAfter "run-1" 0
              [MetricsOp.set_expected_steps 2,
                MetricsOp.record_evidence_step "US-001"]).finish).expected_steps
            : ℚ) * 100) :=
  (completeness_percent_spec "run-1" 0
      [MetricsOp.set_expected_steps 2,
        MetricsOp.record_evidence_step "US-001"]).2.2.2
    (by decide)

/-- `filesIntersect` decides overlap of the target-file lists. -/
theorem filesIntersect_iff (a b : StoryNode) :
    filesIntersect a b = true
      ↔ ∃ f, f ∈ a.target_files ∧ f ∈ b.target_files := by
  unfold filesIntersect
  simp [List.any_eq_true]

/-- Overlap of target files is symmetric. -/
theorem filesIntersect_comm (a b : StoryNode) :
    filesIntersect a b = filesIntersect b a := by
  have h : filesIntersect a b = true ↔ filesIntersect b a = true := by
    rw [filesIntersect_iff, filesIntersect_iff]
    constructor
    · rintro ⟨f, h1, h2⟩; exact ⟨f, h2, h1⟩
    · rintro ⟨f, h1, h2⟩; exact ⟨f, h2, h1⟩
  cases hab : filesIntersect a b with
  | true => exact (h.mp hab).symm
  | false =>
      cases hba : filesIntersect b a with
      | false => rfl
      | true =>
          have hcontra := h.mpr hba
          rw [hab] at hcontra
          cases hcontra

/-- `losesTo` unfolded to its proposition. -/
theorem losesTo_iff (s t : StoryNode) :
    losesTo s t = true
      ↔ filesIntersect s t = true
        ∧ (t.priority < s.priority
          ∨ (s.priority = t.priority ∧ t.id < s.id)) := by
  unfold losesTo
  simp

/-- No story loses against itself. -/
theorem losesTo_self (s : StoryNode) : losesTo s s = false := by
  unfold losesTo
  simp

/-- When the first story loses, `conflictPair` records it first. -/
theorem conflictPair_of_losesTo (a b : StoryNode)
    (h : losesTo a b = true) : conflictPair a b = some (a.id, b.id) := by
  obtain ⟨hint, hord⟩ := (losesTo_iff a b).mp h
  unfold conflictPair
  rw [if_pos hint]
  rcases hord with hp | ⟨heq, hid⟩
  · rw [if_pos hp]
  · have h1 : ¬b.priority < a.priority := by rw [heq]; exact lt_irrefl _
    have h2 : ¬a.priority < b.priority := by rw [heq]; exact lt_irrefl _
    rw [if_neg h1, if_neg h2, if_pos hid]

/-- When the second story loses, `conflictPair` still records the loser
first. -/
theorem conflictPair_of_losesTo_snd (a b : StoryNode)
    (h : losesTo b a = true) : conflictPair a b = some (b.id, a.id) := by
  obtain ⟨hint, hord⟩ := (losesTo_iff b a).mp h
  have hint2 : filesIntersect a b = true := by
    rw [filesIntersect_comm]; exact hint
  unfold conflictPair
  rw [if_pos hint2]
  rcases hord with hp | ⟨heq, hid⟩
  · have h1 : ¬b.priority < a.priority := asymm hp
    rw [if_neg h1, if_pos hp]
  · have h1 : ¬b.priority < a.priority := by rw [heq]; exact lt_irrefl _
    have h2 : ¬a.priority < b.priority := by rw [heq]; exact lt_irrefl _
    have h3 : ¬b.id < a.id := asymm hid
    rw [if_neg h1, if_neg h2, if_neg h3]

/-- For stories with distinct ids, the first component of a recorded
conflict pair is exactly the id of the story that loses by the
priority-then-id rule. -/
theorem conflictPair_fst (a b : StoryNode) (hne : a.id ≠ b.id)
    (x y : String) (h : conflictPair a b = some (x, y)) :
    (x = a.id ∧ losesTo a b = true) ∨ (x = b.id ∧ losesTo b a = true) := by
  unfold conflictPair at h
  by_cases hint : filesIntersect a b = true
  swap
  · rw [if_neg hint] at h
    cases h
  rw [if_pos hint] at h
  have hint2 : filesIntersect b a = true := by
    rw [filesIntersect_comm]; exact hint
  by_cases h1 : b.priority < a.priority
  · rw [if_pos h1] at h
    simp only [Option.some.injEq, Prod.mk.injEq] at h
    exact Or.inl ⟨h.1.symm, (losesTo_iff a b).mpr ⟨hint, Or.inl h1⟩⟩
  · rw [if_neg h1] at h
    by_cases h2 : a.priority < b.priority
    · rw [if_pos h2] at h
      simp only [Option.some.injEq, Prod.mk.injEq] at h
      exact Or.inr ⟨h.1.symm, (losesTo_iff b a).mpr ⟨hint2, Or.inl h2⟩⟩
    · rw [if_neg h2] at h
      have heq : a.priority = b.priority :=
        le_antisymm (not_lt.mp h1) (not_lt.mp h2)
      by_cases h3 : b.id < a.id
      · rw [if_pos h3] at h
        simp only [Option.some.injEq, Prod.mk.injEq] at h
        exact Or.inl
          ⟨h.1.symm, (losesTo_iff a b).mpr ⟨hint, Or.inr ⟨heq, h3⟩⟩⟩
      · rw [if_neg h3] at h
        simp only [Option.some.injEq, Prod.mk.injEq] at h
        have h4 : a.id < b.id := by
          rcases lt_trichotomy a.id b.id with hlt | heqid | hgt
          · exact hlt
          · exact absurd heqid hne
          · exact absurd hgt h3
        exact Or.inr
          ⟨h.1.symm, (losesTo_iff b a).mpr ⟨hint2, Or.inr ⟨heq.symm, h4⟩⟩⟩

/-- Under distinct ids, an id appears as a deferred (first) component of
the detected conflicts exactly when its story loses against some other
story of the list. -/
theorem mem_fst_detect (l : List StoryNode)
    (hnd : (l.map StoryNode.id).Nodup) (x : String) :
    x ∈ (detect_preexecution_conflicts l).map Prod.fst
      ↔ ∃ a ∈ l, ∃ b ∈ l, a.id ≠ b.id ∧ x = a.id ∧ losesTo a b = true := by
  induction l with
  | nil => simp [detect_preexecution_conflicts]
  | cons c rest ih =>
      rw [List.map_cons, List.nodup_cons] at hnd
      have hcid : c.id ∉ rest.map StoryNode.id := hnd.1
      have hndr : (rest.map StoryNode.id).Nodup := hnd.2
      simp only [detect_preexecution_conflicts, List.map_append,
        List.mem_append]
      rw [ih hndr]
      constructor
      · rintro (hx | hx)
        · rw [List.mem_map] at hx
          obtain ⟨⟨x1, y1⟩, hmem, hfst⟩ := hx
          rw [List.mem_filterMap] at hmem
          obtain ⟨b, hb, hcb⟩ := hmem
          have hne : c.id ≠ b.id := by
            intro he
            exact hcid (he ▸ List.mem_map_of_mem StoryNode.id hb)
          rcases conflictPair_fst c b hne x1 y1 hcb with ⟨hx1, hl⟩ | ⟨hx1, hl⟩
          · exact ⟨c, by simp, b, by simp [hb], hne,
              by rw [← hfst, hx1], hl⟩
          · exact ⟨b, by simp [hb], c, by simp, Ne.symm hne,
              by rw [← hfst, hx1], hl⟩
        · obtain ⟨a, ha, b, hb, hne, hx, hl⟩ := hx
          exact ⟨a, by simp [ha], b, by simp [hb], hne, hx, hl⟩
      · rintro ⟨a, ha, b, hb, hne, hx, hl⟩
        rw [List.mem_cons] at ha hb
        rcases ha with rfl | ha
        · rcases hb with rfl | hb
          · exact absurd rfl hne
          · left
            rw [List.mem_map]
            refine ⟨(a.id, b.id), ?_, hx.symm⟩
            rw [List.mem_filterMap]
            exact ⟨b, hb, conflictPair_of_losesTo a b hl⟩
        · rcases hb with rfl | hb
          · left
            rw [List.mem_map]
            refine ⟨(a.id, b.id), ?_, hx.symm⟩
            rw [List.mem_filterMap]
            exact ⟨a, ha, conflictPair_of_losesTo_snd b a hl⟩
          · right
            exact ⟨a, ha, b, hb, hne, hx, hl⟩

/-- Two Booleans agreeing as propositions are equal. -/
theorem bool_eq_of_iff {x y : Bool} (h : x = true ↔ y = true) : x = y := by
  cases x <;> cases y <;> simp_all

/-- C1: on a ready set with distinct story ids, the pre-execution conflict
filter returns exactly the stories, in their original order, that do not
lose against any other story of the set under the "overlapping target
files, higher priority number loses, ties broken by the greater
lexicographic id" rule; a set in which no two distinct stories overlap is
returned whole. -/
theorem conflict_filter_spec (stories : List StoryNode)
    (hids : (stories.map StoryNode.id).Nodup) :
    (filter_conflicting_stories stories).1
        = stories.filter (fun s => !(stories.any (fun t => losesTo s t)))
    ∧ ((∀ a ∈ stories, ∀ b ∈ stories, a.id ≠ b.id →
          filesIntersect a b = false)
        → (filter_conflicting_stories stories).1 = stories) := by
  have hinj : ∀ x ∈ stories, ∀ y ∈ stories, x.id = y.id → x = y :=
    List.inj_on_of_nodup_map hids
  have hani : ∀ s ∈ stories,
      (stories.any (fun t => losesTo s t) = true
        ↔ s.id ∈ (detect_preexecution_conflicts stories).map Prod.fst) := by
    intro s hs
    rw [List.any_eq_true, mem_fst_detect stories hids s.id]
    constructor
    · rintro ⟨t, ht, hl⟩
      have hne : s.id ≠ t.id := by
        intro he
        have hst : s = t := hinj s hs t ht he
        rw [hst, losesTo_self] at hl
        cases hl
      exact ⟨s, hs, t, ht, hne, rfl, hl⟩
    · rintro ⟨a, ha, b, hb, hne, hxa, hl⟩
      have has : a = s := hinj a ha s hs hxa.symm
      exact ⟨b, hb, has ▸ hl⟩
  have hmain : (filter_conflicting_stories stories).1
      = stories.filter (fun s => !(stories.any (fun t => losesTo s t))) := by
    by_cases hemp : stories.isEmpty = true
    · have hnil : stories = [] := List.isEmpty_iff.mp hemp
      subst hnil
      simp [filter_conflicting_stories]
    · cases hd : detect_preexecution_conflicts stories with
      | nil =>
          unfold filter_conflicting_stories
          rw [if_neg hemp]
          simp only [hd, List.isEmpty_nil, if_true]
          refine (List.filter_eq_self.mpr ?_).symm
          intro s hs
          cases hany : stories.any (fun t => losesTo s t) with
          | false => rfl
          | true =>
              have hmem := (hani s hs).mp hany
              rw [hd] at hmem
              cases hmem
      | cons p ps =>
          unfold filter_conflicting_stories
          rw [if_neg hemp]
          simp only [hd, List.isEmpty_cons, if_false]
          apply List.filter_congr
          intro s hs
          apply congrArg
          apply bool_eq_of_iff
          rw [List.elem_iff, ← hd, ← hani s hs]
  refine ⟨hmain, ?_⟩
  intro hno
  rw [hmain]
  apply List.filter_eq_self.mpr
  intro s hs
  cases hany : stories.any (fun t => losesTo s t) with
  | false => rfl
  | true =>
      exfalso
      obtain ⟨t, ht, hl⟩ := List.any_eq_true.mp hany
      obtain ⟨hint, -⟩ := (losesTo_iff s t).mp hl
      by_cases hne : s.id = t.id
      · have hst : s = t := hinj s hs t ht hne
        rw [hst, losesTo_self] at hl
        cases hl
      · rw [hno s hs t ht hne] at hint
        cases hint

/-- C1 (witness): of three ready stories with distinct ids where the first
two share `src/lib.rs`, the filter keeps the higher-priority story and the
non-conflicting story and drops the lower-priority one. -/
theorem conflict_filter_spec_witness :
    (filter_conflicting_stories exampleStories).1
      = exampleStories.filter
          (fun s => !(exampleStories.any (fun t => losesTo s t))) :=
  (conflict_filter_spec exampleStories (by decide)).1

end Ralph
